import Mathlib

/-!
Verification of the loopfactory supervisor core against its specification.

Each Python component relevant to the checked claims is shallowly embedded:
pure functions become Lean functions, stateful handlers become explicit
state-passing functions, wall-clock times are integers (seconds), and the
random jitter sample and the external CLI's behaviour are passed in as
parameters.  Machine/float subtleties are noted where they matter.
-/

/-! ## AgentRunner retry loop (src/mcn_core/agent_runner.py)

`MCNAgentRunner._execute_loop` runs the CLI up to `MAX_RETRY_ATTEMPTS`
times (`for attempt in range(1, MAX_RETRY_ATTEMPTS + 1)`).  An attempt is
retryable iff its return code is nonzero, it is not the last allowed
attempt, and the combined lowercased stdout/stderr contains one of the
keywords.  Before retrying it sleeps `min(2 ** (attempt - 1), 30)` seconds.
The embedding records, instead of performing, the subprocess calls and the
sleeps: the CLI is a function from the attempt number to its result, and
the trace keeps the per-attempt log (mirroring `attempts_log`) plus a list
of `(failed_attempt, backoff_seconds)` pairs, where a pair `(k, b)` means
the loop slept `b` seconds after attempt `k` failed, i.e. immediately
before the retried attempt `k + 1`. -/

structure CliResult where
  returncode : Int
  stdout : String
  stderr : String

structure AttemptInfo where
  attempt : Nat
  return_code : Int
  retryable : Bool

structure LoopTrace where
  attempts : List AttemptInfo
  sleeps : List (Nat × Nat)
  result : Option CliResult

def MAX_RETRY_ATTEMPTS : Nat := 8

def RETRYABLE_ERROR_KEYWORDS : List String :=
  ["concurrency", "rate limit", "rate-limit", "too many requests", "429", "resource_exhausted"]

/-- `MCNAgentRunner._is_retryable_limit_error`: the combined
`f"{stdout}\n{stderr}".lower()` contains one of the keywords. -/
def isRetryableLimitError (stdout_text stderr_text : String) : Bool :=
  let combined := ((stdout_text ++ "\n" ++ stderr_text).data.map Char.toLower)
  RETRYABLE_ERROR_KEYWORDS.any (fun kw => decide (kw.data <:+: combined))

/-- The body of `_execute_loop`'s retry loop, iterating over the list of
attempt numbers (`range(1, MAX_RETRY_ATTEMPTS + 1)`).  A zero return code
breaks out; a retryable failure sleeps `min(2 ** (attempt - 1), 30)` and
continues; any other failure breaks out. -/
def runAttempts (cli : Nat → CliResult) : List Nat → LoopTrace
  | [] => ⟨[], [], none⟩
  | attempt :: rest =>
    let result := cli attempt
    let retryable := decide (result.returncode ≠ 0) &&
      decide (attempt < MAX_RETRY_ATTEMPTS) &&
      isRetryableLimitError result.stdout result.stderr
    let info : AttemptInfo := ⟨attempt, result.returncode, retryable⟩
    if result.returncode = 0 then
      ⟨[info], [], some result⟩
    else if retryable = true then
      let tail := runAttempts cli rest
      ⟨info :: tail.attempts, (attempt, min (2 ^ (attempt - 1)) 30) :: tail.sleeps, tail.result⟩
    else
      ⟨[info], [], some result⟩

/-- The whole retry loop of `MCNAgentRunner._execute_loop`. -/
def executeLoopTrace (cli : Nat → CliResult) : LoopTrace :=
  runAttempts cli (List.range' 1 MAX_RETRY_ATTEMPTS)

/-- A CLI that always fails with output "rate limit exceeded" and exit code 1. -/
def const_rate_limit_cli : Nat → CliResult :=
  fun _ => ⟨1, "rate limit exceeded", ""⟩

/-! ## Scheduling policy (src/mcn_core/scheduling_policy.py)

Pure decision functions.  Wall-clock instants are integers in seconds and
intervals are in minutes, as in the source.  `random.randint(0, jitter)` is
modelled by passing the sampled value `jitter_sample` as a parameter.
Python's floor division `//` is `Int.fdiv`; `int(x * 0.75)` and
`int(x * 1.5)` truncate toward zero and are exact in float for the interval
magnitudes involved, so they are `Int.tdiv (3 * x) 4` and
`Int.tdiv (3 * x) 2`. -/

structure SchedulingConfig where
  base_interval_minutes : Int
  jitter_minutes : Int

/-- An agent row as `_load_agent` returns it (id, status, activity_status,
last_heartbeat); a `none` field is a SQL NULL. -/
structure PolicyAgent where
  id : String
  status : Option String
  activity_status : Option String
  last_heartbeat : Option String

structure ScheduleDecision where
  next_run_at : Int
  interval_minutes : Int
  policy : String
  reason : String
  priority : Int

/-- `_base_interval(agent, throttled)`: the interval in minutes before the
next heartbeat.  `(agent or {}).get("status", "ACTIVE")` defaults the
status only when the agent record itself is absent. -/
def base_interval (cfg : SchedulingConfig) (agent : Option PolicyAgent)
    (throttled : Bool) (jitter_sample : Int) : Int :=
  let interval := cfg.base_interval_minutes
  let status : Option String :=
    match agent with
    | none => some "ACTIVE"
    | some a => a.status
  let activity_status : Option String :=
    match agent with
    | none => none
    | some a => a.activity_status
  let interval :=
    if status = some "PROBATION" ∨ status = some "PENDING" then max 5 (Int.fdiv interval 2)
    else if status = some "DESIGN" then max interval (2 * interval)
    else interval
  let interval :=
    if activity_status = some "WARNING" ∨ activity_status = some "CRITICAL" then
      max 5 (Int.fdiv interval 2)
    else if activity_status = some "IDLE" then max 5 (Int.tdiv (interval * 3) 4)
    else interval
  let interval := if throttled then Int.tdiv (interval * 3) 2 else interval
  let interval := if 0 < cfg.jitter_minutes then interval + jitter_sample else interval
  max 5 interval

/-- `decide_next_run(agent, throttled)`. -/
def decide_next_run (cfg : SchedulingConfig) (agent : Option PolicyAgent)
    (throttled : Bool) (jitter_sample : Int) (now : Int) : Option ScheduleDecision :=
  let interval := base_interval cfg agent throttled jitter_sample
  let next_run := now + interval * 60
  let reason := if throttled then "throttled" else "scheduled"
  let is_active : Bool :=
    match agent with
    | some a => a.status == some "ACTIVE"
    | none => false
  let priority : Int := if is_active then -1 else 0
  some ⟨next_run, interval, "heartbeat", reason, priority⟩

/-- `decide_backoff(agent, minutes=5)`. -/
def decide_backoff (agent : Option PolicyAgent) (minutes : Int) (now : Int) :
    Option ScheduleDecision :=
  let interval := max 1 minutes
  let next_run := now + interval * 60
  some ⟨next_run, interval, "backoff", "resource_backoff", 5⟩

/-! ## Scheduler job arming (src/mcn_core/scheduler.py)

`HeartbeatScheduler.add_agent` and `_schedule_job`, embedded as functions
on the scheduler's bookkeeping state: the `_active_jobs` dict, the
`BackgroundScheduler`'s jobs (job id to armed run time), the
`agent_schedule` table, and the list of immediate execution tasks spawned
with `asyncio.create_task`. -/

structure SchedulerState where
  active_jobs : String → Option String
  scheduler_jobs : String → Option Int
  schedule_rows : String → Option ScheduleDecision
  immediate_tasks : List String

/-- `_schedule_job(agent_id, decision)`: clamp a past run time to now+10 s,
arm the one-shot job `heartbeat_<agent_id>` (replace_existing), record it in
`_active_jobs` and upsert the schedule row. -/
def schedule_job (st : SchedulerState) (agent_id : String) (decision : ScheduleDecision)
    (now : Int) : SchedulerState :=
  let run_at := if decision.next_run_at ≤ now then now + 10 else decision.next_run_at
  let job_id := "heartbeat_" ++ agent_id
  { st with
    scheduler_jobs := fun j => if j = job_id then some run_at else st.scheduler_jobs j,
    active_jobs := fun a => if a = agent_id then some job_id else st.active_jobs a,
    schedule_rows := fun a => if a = agent_id then some decision else st.schedule_rows a }

/-- `add_agent(agent_id, run_immediately=True)`: skip when the agent already
has a live armed job; otherwise decide the next run (throttled defaults to
False) and, when a decision comes back, arm the job and optionally spawn an
immediate heartbeat task.  `agent` is what `_load_agent(agent_id)` returned. -/
def add_agent (cfg : SchedulingConfig) (st : SchedulerState) (agent_id : String)
    (agent : Option PolicyAgent) (run_immediately : Bool) (jitter_sample now : Int) :
    SchedulerState :=
  let proceed : SchedulerState :=
    match decide_next_run cfg agent false jitter_sample now with
    | some decision =>
      let st' := schedule_job st agent_id decision now
      if run_immediately then { st' with immediate_tasks := agent_id :: st'.immediate_tasks }
      else st'
    | none => st
  match st.active_jobs agent_id with
  | some job_id => if (st.scheduler_jobs job_id).isSome then st else proceed
  | none => proceed

/-! ## Workspace state file (src/mcn_core/agent_runner.py, update_state)

`MCNAgentRunner.update_state` reads `state.json` (`get_state`, which
returns `{}` when the file is missing), applies `state.update(updates)`,
sets `state["updated_at"]` to the current time and writes the file back.
JSON objects are modelled as finite maps `String → Option PyVal`; a Python
dict's `update` is keywise override. -/

inductive PyVal where
  | str : String → PyVal
  | int : Int → PyVal
  | bool : Bool → PyVal
  | dict : List (String × PyVal) → PyVal

/-- The mapping of `d.update(u)` (u's entries win). -/
def py_dict_update (d u : String → Option PyVal) : String → Option PyVal :=
  fun k =>
    match u k with
    | some v => some v
    | none => d k

/-- The mapping of `d[key] = v`. -/
def py_dict_set (d : String → Option PyVal) (key : String) (v : PyVal) :
    String → Option PyVal :=
  fun k => if k = key then some v else d k

/-- `get_state()`: the parsed `state.json`, or `{}` when the file is absent. -/
def get_state (file : Option (String → Option PyVal)) : String → Option PyVal :=
  match file with
  | none => fun _ => none
  | some d => d

/-- `update_state(updates)`: the mapping written back to `state.json`. -/
def update_state (file : Option (String → Option PyVal))
    (updates : String → Option PyVal) (now_iso : String) : String → Option PyVal :=
  py_dict_set (py_dict_update (get_state file) updates) "updated_at" (PyVal.str now_iso)

/-! ## ConcurrencyController (src/mcn_core/concurrency_controller.py)

`get_max_concurrent` with its TTL cache, as a state-passing function.  The
resource monitor's recommendation (`ResourceMonitor.get_max_concurrent_agents`,
any integer, possibly 0 or negative) and the current time are parameters. -/

def CACHE_TTL_SECONDS : Int := 10

structure CcState where
  cached_max : Option Int
  last_refresh : Int

/-- `ConcurrencyController.__init__`: no cached value, last refresh 0.0. -/
def cc_init : CcState := ⟨none, 0⟩

/-- `get_max_concurrent(force_recalc)`: recompute `max(1, monitor value)`
when forced, never computed, or the TTL elapsed; otherwise return the
cached value (which is an `int`, never `None`, on this branch). -/
def get_max_concurrent (st : CcState) (now : Int) (force_recalc : Bool)
    (monitor_max : Int) : Int × CcState :=
  if force_recalc = true ∨ st.cached_max = none ∨
      CACHE_TTL_SECONDS ≤ now - st.last_refresh then
    let m := max 1 monitor_max
    (m, ⟨some m, now⟩)
  else
    (st.cached_max.getD 0, st)

/-- The cache invariant: a cached value is at least 1. -/
def CcInv (st : CcState) : Prop := ∀ v, st.cached_max = some v → 1 ≤ v

/-! ## ActivityMonitor classification (src/mcn_core/activity_monitor.py)

`ActivityMonitor._get_activity_status` and `_is_bucks_stagnant`.  Times are
integer seconds; `last_heartbeat = none` covers both an absent column value
and an unparseable timestamp (both return UNKNOWN in the source).  The
metrics table is a list of rows; the two SQL queries (`ORDER BY recorded_at
ASC LIMIT 1` over rows with `recorded_at >= since`, and `ORDER BY
recorded_at DESC LIMIT 1` over all rows) select an extremal row, keeping
the first row on ties (the SQL order among ties is unspecified). -/

structure ActivityConfig where
  idle_threshold_minutes : Int
  warning_threshold_hours : Int
  critical_threshold_hours : Int
  observation_period_days : Int
  min_growth_threshold : Int

structure MetricRow where
  recorded_at : Int
  total_bucks : Option Int

/-- The row a `ORDER BY recorded_at ASC LIMIT 1` query returns. -/
def min_by_recorded : List MetricRow → Option MetricRow
  | [] => none
  | x :: xs => some (xs.foldl (fun b a => if a.recorded_at < b.recorded_at then a else b) x)

/-- The row a `ORDER BY recorded_at DESC LIMIT 1` query returns. -/
def max_by_recorded : List MetricRow → Option MetricRow
  | [] => none
  | x :: xs => some (xs.foldl (fun b a => if b.recorded_at < a.recorded_at then a else b) x)

/-- `_is_bucks_stagnant(agent_id)`: growth of total_bucks between the
earliest metric inside the observation window and the latest metric overall
is below the threshold; false when either row is missing.  A SQL NULL
total_bucks counts as 0 (`row['total_bucks'] or 0`). -/
def is_bucks_stagnant (cfg : ActivityConfig) (metrics : List MetricRow) (now : Int) : Bool :=
  let since := now - cfg.observation_period_days * 86400
  let old := min_by_recorded (metrics.filter (fun m => decide (since ≤ m.recorded_at)))
  let latest := max_by_recorded metrics
  match old, latest with
  | some o, some n =>
    decide ((n.total_bucks.getD 0) - (o.total_bucks.getD 0) < cfg.min_growth_threshold)
  | _, _ => false

/-- `_get_activity_status(agent)`: classify by time since last heartbeat,
then by bucks growth. -/
def get_activity_status (cfg : ActivityConfig) (last_heartbeat : Option Int)
    (metrics : List MetricRow) (now : Int) : String :=
  match last_heartbeat with
  | none => "UNKNOWN"
  | some hb =>
    let elapsed := now - hb
    if cfg.critical_threshold_hours * 3600 < elapsed then "CRITICAL"
    else if cfg.warning_threshold_hours * 3600 < elapsed then "WARNING"
    else if cfg.idle_threshold_minutes * 60 < elapsed then "IDLE"
    else if is_bucks_stagnant cfg metrics now then "STAGNANT"
    else "HEALTHY"

/-! ## ActivationMonitor selection and registration
(src/mcn_core/activation_monitor.py, src/api/routers/agents.py)

`ActivationMonitor._check_all_pending` selects the agents it will probe
with

  SELECT a.id, a.display_name, p.created_at, p.check_count
  FROM agents a JOIN pending_activation p ON p.agent_id = a.id
  WHERE a.status = 'PENDING'

and `register_agent`'s success path updates the agent row to
status='WAITING' (setting activation_url and registered_at) and inserts a
`pending_activation` row.  Timestamps stay opaque strings here. -/

structure ActAgentRow where
  id : String
  status : String
  activation_url : Option String
  registered_at : Option String
deriving DecidableEq

structure PendingRow where
  agent_id : String
  activation_url : String
  created_at : String
  check_count : Int
deriving DecidableEq

structure ActDb where
  agents : List ActAgentRow
  pending : List PendingRow
deriving DecidableEq

/-- The agent ids `_check_all_pending` probes on one pass (the JOIN keeps
agents having a pending_activation row; the WHERE keeps status PENDING). -/
def check_all_pending_selected (db : ActDb) : List String :=
  (db.agents.filter
    (fun a => a.status == "PENDING" && db.pending.any (fun p => p.agent_id == a.id))).map
    (fun a => a.id)

/-- The DB effect of `register_agent`'s success branch. -/
def register_agent_success_db (db : ActDb) (agent_id url now_iso : String) : ActDb :=
  { agents := db.agents.map (fun a =>
      if a.id = agent_id then
        { a with
          status := "WAITING"
          activation_url := some url
          registered_at := some now_iso }
      else a),
    pending := db.pending ++ [⟨agent_id, url, now_iso, 0⟩] }

/-- `ActivationMonitor._is_activated(output)`: the lowercased CLI stdout
contains one of the activation markers. -/
def is_activated (output : String) : Bool :=
  if output.isEmpty then false
  else
    let output_lower := output.data.map Char.toLower
    decide (("\"status\": \"active\"".data) <:+: output_lower) ||
    decide (("status: active".data) <:+: output_lower) ||
    decide (("activated successfully".data) <:+: output_lower)

/-- A DESIGN agent about to be registered, and the DB after registering it. -/
def c1_design_db : ActDb := ⟨[⟨"agent1", "DESIGN", none, none⟩], []⟩

def c1_registered_db : ActDb :=
  register_agent_success_db c1_design_db "agent1" "https://example.test/activate/agent1" "t0"

/-! ## Agent update endpoint (src/api/routers/agents.py, update_agent)

The PUT /agents/:id handler, embedded over a database state holding the
agents table (rows are string-keyed maps), the loop_sites ids and the
loop_nodes (id, site_id) pairs.  The `AgentUpdate` request model
(src/api/models.py) has the optional fields name, type, config, schedule
and status (an enum whose `.value` string the handler extracts).  The
handler's steps that follow the SQL UPDATE (workspace-file sync, scheduler
notification) act outside this database state and only run on the success
path.  `raise HTTPException` is the error side of the result; an error
raised before a write leaves the state component unchanged. -/

structure AgentUpdateM where
  name : Option String
  type : Option String
  config : Option (List (String × PyVal))
  schedule : Option String
  status : Option String

structure HttpError where
  status_code : Nat
  detail : String
deriving DecidableEq

structure ApiDb where
  agents : String → Option (String → Option PyVal)
  sites : List String
  nodes : List (String × String)

/-- `{k: v for k, v in agent.dict().items() if v is not None}`. -/
def agent_update_dict (u : AgentUpdateM) : List (String × PyVal) :=
  ([("name", u.name.map PyVal.str),
    ("type", u.type.map PyVal.str),
    ("config", u.config.map PyVal.dict),
    ("schedule", u.schedule.map PyVal.str),
    ("status", u.status.map PyVal.str)]).filterMap
    (fun kv => kv.2.map (fun v => (kv.1, v)))

/-- Python truthiness of the JSON-ish values involved. -/
def py_truthy : PyVal → Bool
  | .str s => !s.isEmpty
  | .int n => decide (n ≠ 0)
  | .bool b => b
  | .dict l => !l.isEmpty

/-- `d[key] = v` on a dict kept as an association list (replace an existing
key in place, else append). -/
def py_dict_assign (l : List (String × PyVal)) (k : String) (v : PyVal) :
    List (String × PyVal) :=
  if (l.lookup k).isSome then l.map (fun kv => if kv.1 = k then (k, v) else kv)
  else l ++ [(k, v)]

/-- The topology validation block of `update_agent`: runs when site_id or
node_id is among the updates; falsy targets are skipped; a missing site or
node, or a node outside the target site, raises a 400. -/
def validate_topology (db : ApiDb) (row : String → Option PyVal)
    (updates : List (String × PyVal)) : Option HttpError :=
  if (updates.lookup "site_id").isSome || (updates.lookup "node_id").isSome then
    let target_site :=
      match updates.lookup "site_id" with
      | some v => some v
      | none => row "site_id"
    let target_node :=
      match updates.lookup "node_id" with
      | some v => some v
      | none => row "node_id"
    let site_error : Option HttpError :=
      match target_site with
      | some v =>
        if py_truthy v then
          match v with
          | .str s => if db.sites.contains s then none else some ⟨400, "Invalid site_id"⟩
          | _ => some ⟨400, "Invalid site_id"⟩
        else none
      | none => none
    match site_error with
    | some e => some e
    | none =>
      match target_node with
      | some v =>
        if py_truthy v then
          match v with
          | .str s =>
            match db.nodes.lookup s with
            | none => some ⟨400, "Invalid node_id"⟩
            | some node_site =>
              match target_site with
              | some tv =>
                if py_truthy tv then
                  match tv with
                  | .str ts =>
                    if node_site ≠ ts then
                      some ⟨400, "node_id does not belong to site_id"⟩
                    else none
                  | _ => some ⟨400, "node_id does not belong to site_id"⟩
                else none
              | none => none
          | _ => some ⟨400, "Invalid node_id"⟩
        else none
      | none => none
  else none

/-- `update_agent(agent_id, agent)`: 404 for a missing agent; 400 for an
empty update set; status-enum conversion plus activated_at stamping;
use_mcp normalization; topology validation; then the dynamic
`UPDATE agents SET <keys> WHERE id = ?`. -/
def update_agent_api (db : ApiDb) (agent_id : String) (u : AgentUpdateM)
    (now_iso : String) : ApiDb × Except HttpError Unit :=
  match db.agents agent_id with
  | none => (db, Except.error ⟨404, "Agent not found"⟩)
  | some row =>
    let updates := agent_update_dict u
    if updates.isEmpty then (db, Except.error ⟨400, "No fields to update"⟩)
    else
      let status_entry := updates.lookup "status"
      let updates :=
        match status_entry with
        | some v => py_dict_assign updates "status" v
        | none => updates
      let updates :=
        match status_entry with
        | some (PyVal.str s) =>
          if s = "ACTIVE" then py_dict_assign updates "activated_at" (PyVal.str now_iso)
          else updates
        | _ => updates
      let updates :=
        match updates.lookup "use_mcp" with
        | some v => py_dict_assign updates "use_mcp" (PyVal.int (if py_truthy v then 1 else 0))
        | none => updates
      match validate_topology db row updates with
      | some e => (db, Except.error e)
      | none =>
        let new_row := updates.foldl (fun r kv => py_dict_set r kv.1 kv.2) row
        ({ db with agents := fun a => if a = agent_id then some new_row else db.agents a },
          Except.ok ())

/-- A one-agent database for the C6 witness. -/
def c6_db : ApiDb :=
  ⟨fun a => if a = "agent1" then some (fun _ => none) else none,
    ["site_default"], [("node_default", "site_default")]⟩

/-! ## Heartbeat concurrency discipline
(src/mcn_core/scheduler.py `_execute_heartbeat`/`_acquire_execution_slot`,
src/mcn_core/heartbeat_manager.py `execute_heartbeat`)

The interleaving of heartbeat tasks is modelled as a transition system: a
state is the list of per-task program points along `_execute_heartbeat`,
and a step advances one task.  asyncio lock discipline is captured by the
step guards: a task may enter the admission region (`async with
self._admission_lock:` around the resource-check loop and the inflight
increment) only when no task is inside it, and may start its blocking CLI
run (`async with self._lock: await asyncio.to_thread(runner.run_heartbeat)`
in HeartbeatManager — the process-wide manager mutex is held for the whole
run) only when no task is running the CLI.  The resource poll
(`while not can_run_agent(): sleep(1)`) loops in place inside the admission
region, and the defensive re-check after admission either proceeds to the
manager or takes the 5-minute backoff return; both outcomes appear as
nondeterministic branches.  The inflight counter bookkeeping does not
affect the lock discipline and is elided. -/

inductive HbPc where
  | admWait
  | resCheck
  | slotHeld
  | admitted
  | backedOff
  | mgrWait
  | runningCli
  | finished
deriving DecidableEq

/-- Program points at which a task holds `_admission_lock`. -/
def admission_region : HbPc → Bool
  | .resCheck => true
  | .slotHeld => true
  | _ => false

/-- Program points at which a task holds the HeartbeatManager lock, i.e. is
executing the blocking CLI run. -/
def cli_region : HbPc → Bool
  | .runningCli => true
  | _ => false

/-- One scheduling step of the heartbeat tasks. -/
inductive HbStep : List HbPc → List HbPc → Prop where
  | acquire_admission (s : List HbPc) (i : Nat) :
      s.get? i = some .admWait → s.countP admission_region = 0 →
      HbStep s (s.set i .resCheck)
  | admit_slot (s : List HbPc) (i : Nat) :
      s.get? i = some .resCheck → HbStep s (s.set i .slotHeld)
  | release_admission (s : List HbPc) (i : Nat) :
      s.get? i = some .slotHeld → HbStep s (s.set i .admitted)
  | backoff_return (s : List HbPc) (i : Nat) :
      s.get? i = some .admitted → HbStep s (s.set i .backedOff)
  | to_manager (s : List HbPc) (i : Nat) :
      s.get? i = some .admitted → HbStep s (s.set i .mgrWait)
  | acquire_manager (s : List HbPc) (i : Nat) :
      s.get? i = some .mgrWait → s.countP cli_region = 0 →
      HbStep s (s.set i .runningCli)
  | finish_cli (s : List HbPc) (i : Nat) :
      s.get? i = some .runningCli → HbStep s (s.set i .finished)

/-- The initial state of `n` heartbeat tasks about to request admission. -/
def hb_init (n : Nat) : List HbPc := List.replicate n HbPc.admWait

/-! ### Theorems (helpers shared across claims come first) -/

theorem infix_map {α β : Type} (f : α → β) {l₁ l₂ : List α} (h : l₁ <:+: l₂) :
    l₁.map f <:+: l₂.map f := by
  obtain ⟨s, t, rfl⟩ := h
  exact ⟨s.map f, t.map f, by simp⟩

theorem retryable_of_rate_limit {s t : String}
    (h : "rate limit exceeded".data <:+: s.data) :
    isRetryableLimitError s t = true := by
  unfold isRetryableLimitError
  apply List.any_eq_true.mpr
  refine ⟨"rate limit", by decide, decide_eq_true ?_⟩
  have h1 : "rate limit".data <:+: "rate limit exceeded".data := by decide
  have h2 : "rate limit".data <:+: s.data := h1.trans h
  have h3 : s.data <:+: (s ++ "\n" ++ t).data :=
    ⟨[], "\n".data ++ t.data, by simp [String.data_append]⟩
  have h4 : ("rate limit".data).map Char.toLower = "rate limit".data := by decide
  have h5 := infix_map Char.toLower (h2.trans h3)
  rwa [h4] at h5

/-- Claim C2: when the CLI always exits nonzero with stdout containing
"rate limit exceeded", the retry loop makes exactly 8 attempts, and the
backoffs slept between attempts are 1, 2, 4, 8, 16, 30, 30 seconds —
91 seconds in total. -/
theorem c2_retry_loop_eight_attempts_91s (cli : Nat → CliResult)
    (h0 : ∀ n, (cli n).returncode ≠ 0)
    (h1 : ∀ n, "rate limit exceeded".data <:+: (cli n).stdout.data) :
    (executeLoopTrace cli).attempts.length = 8 ∧
    ((executeLoopTrace cli).sleeps.map Prod.snd) = [1, 2, 4, 8, 16, 30, 30] ∧
    ((executeLoopTrace cli).sleeps.map Prod.snd).sum = 91 := by
  have hr : ∀ n, isRetryableLimitError (cli n).stdout (cli n).stderr = true :=
    fun n => retryable_of_rate_limit (h1 n)
  have hrange : List.range' 1 MAX_RETRY_ATTEMPTS = [1, 2, 3, 4, 5, 6, 7, 8] := by rfl
  unfold executeLoopTrace
  rw [hrange]
  simp [runAttempts, h0 1, h0 2, h0 3, h0 4, h0 5, h0 6, h0 7, h0 8,
    hr 1, hr 2, hr 3, hr 4, hr 5, hr 6, hr 7, hr 8, MAX_RETRY_ATTEMPTS]

/-- Witness for C2 at the concrete always-rate-limited CLI. -/
theorem c2_retry_loop_eight_attempts_91s_witness :
    (executeLoopTrace const_rate_limit_cli).attempts.length = 8 ∧
    ((executeLoopTrace const_rate_limit_cli).sleeps.map Prod.snd) = [1, 2, 4, 8, 16, 30, 30] ∧
    ((executeLoopTrace const_rate_limit_cli).sleeps.map Prod.snd).sum = 91 :=
  c2_retry_loop_eight_attempts_91s const_rate_limit_cli
    (fun _ => one_ne_zero) (fun _ => List.infix_rfl)

/-- Claim C3 fails as stated: with the always-rate-limited CLI, the backoff
slept immediately before retried attempt n = 2 (the head of the sleep trace,
recorded as the pair (1, b): b seconds slept after failed attempt 1) is
1 second, whereas the claim's formula min(2^(n-1), 30) gives 2 seconds. -/
theorem c3_counterexample_backoff_off_by_one :
    (executeLoopTrace const_rate_limit_cli).sleeps.head? = some (1, 1) ∧
    min (2 ^ (2 - 1)) 30 = 2 ∧ (1 : Nat) ≠ 2 := by
  refine ⟨by decide, by decide, by decide⟩

theorem runAttempts_sleeps_backoff (cli : Nat → CliResult) :
    ∀ (l : List Nat) (p : Nat × Nat), p ∈ (runAttempts cli l).sleeps →
      p.2 = min (2 ^ (p.1 - 1)) 30 := by
  intro l
  induction l with
  | nil => intro p hp; simp [runAttempts] at hp
  | cons attempt rest ih =>
    intro p hp
    simp only [runAttempts] at hp
    split at hp
    · simp at hp
    · split at hp
      · rcases List.mem_cons.mp hp with h | h
        · subst h; rfl
        · exact ih p h
      · simp at hp

/-- Claim C3 amended: every backoff recorded by the retry loop — the pair
(k, b) states that b seconds were slept after failed attempt k, i.e.
immediately before retried attempt n = k + 1 — equals
min(2^(n-2), 30) = min(2^(k-1), 30) seconds, not min(2^(n-1), 30). -/
theorem c3_amended_backoff_formula (cli : Nat → CliResult) (p : Nat × Nat)
    (hp : p ∈ (executeLoopTrace cli).sleeps) :
    p.2 = min (2 ^ ((p.1 + 1) - 2)) 30 := by
  have h := runAttempts_sleeps_backoff cli (List.range' 1 MAX_RETRY_ATTEMPTS) p hp
  have : (p.1 + 1) - 2 = p.1 - 1 := by omega
  rw [this]
  exact h

/-- Witness for the amended C3 at the concrete always-rate-limited CLI. -/
theorem c3_amended_backoff_formula_witness :
    ((1, 1) : Nat × Nat) ∈ (executeLoopTrace const_rate_limit_cli).sleeps ∧
    (1 : Nat) = min (2 ^ ((1 + 1) - 2)) 30 :=
  ⟨by decide, c3_amended_backoff_formula const_rate_limit_cli (1, 1) (by decide)⟩

/-- Claim C4 fails as stated: `decide_backoff` with a requested interval of
1 minute produces a decision whose interval_minutes is 1, which is below
the claimed floor of 5 (the decision's full content is shown). -/
theorem c4_counterexample_backoff_below_five :
    decide_backoff none 1 0 = some ⟨60, 1, "backoff", "resource_backoff", 5⟩ ∧
    (1 : Int) < 5 := by
  exact ⟨rfl, by decide⟩

/-- Claim C4 amended: every decision of `decide_next_run` has
interval_minutes ≥ 5 (the policy ends with `max(5, interval)`), and a
`decide_backoff` decision has interval_minutes = max(1, minutes), hence
≥ 5 whenever the requested minutes are ≥ 5 — as at its only call site,
which passes minutes=5. -/
theorem c4_amended_interval_floor (cfg : SchedulingConfig) (agent agent2 : Option PolicyAgent)
    (throttled : Bool) (jitter_sample now minutes now2 : Int) (hm : 5 ≤ minutes) :
    (∃ d, decide_next_run cfg agent throttled jitter_sample now = some d ∧
      5 ≤ d.interval_minutes) ∧
    (∃ d, decide_backoff agent2 minutes now2 = some d ∧ 5 ≤ d.interval_minutes) := by
  constructor
  · refine ⟨_, rfl, ?_⟩
    exact le_max_left 5 _
  · refine ⟨_, rfl, ?_⟩
    exact le_trans hm (le_max_right 1 minutes)

/-- Witness for the amended C4 at concrete inputs (minutes = 5). -/
theorem c4_amended_interval_floor_witness :
    (∃ d, decide_next_run ⟨60, 8⟩ none false 3 0 = some d ∧ 5 ≤ d.interval_minutes) ∧
    (∃ d, decide_backoff none 5 0 = some d ∧ 5 ≤ d.interval_minutes) :=
  c4_amended_interval_floor ⟨60, 8⟩ none none false 3 0 5 0 (by decide)

/-- Claim C8: `decide_next_run` returns a decision (never None) with policy
"heartbeat" for every agent record — including a missing record and any
non-ACTIVE status — and every throttle flag; consequently `add_agent`
leaves a job armed for the agent in every case: after the call the agent id
is present in `_active_jobs` whatever the loaded record was. -/
theorem c8_decide_next_run_total_add_agent_arms (cfg : SchedulingConfig)
    (agent : Option PolicyAgent) (throttled : Bool) (jitter_sample now : Int)
    (st : SchedulerState) (agent_id : String) (run_immediately : Bool) :
    (decide_next_run cfg agent throttled jitter_sample now).isSome = true ∧
    (decide_next_run cfg agent throttled jitter_sample now).map ScheduleDecision.policy =
      some "heartbeat" ∧
    ((add_agent cfg st agent_id agent run_immediately jitter_sample now).active_jobs
      agent_id).isSome = true := by
  refine ⟨rfl, rfl, ?_⟩
  unfold add_agent
  cases hj : st.active_jobs agent_id with
  | some job_id =>
    simp only
    by_cases hs : (st.scheduler_jobs job_id).isSome
    · simp [hs, hj]
    · simp [hs, decide_next_run, schedule_job]
      split <;> simp
  | none =>
    simp [decide_next_run, schedule_job]
    split <;> simp

/-- Claim C9: the state written by `update_state` maps every key of the
update map (other than updated_at, which the code overwrites last) to its
new value, maps updated_at to the current time, and leaves every other key
of the prior state at its previous value. -/
theorem c9_update_state_frame (file : Option (String → Option PyVal))
    (updates : String → Option PyVal) (now_iso : String) :
    (∀ k v, k ≠ "updated_at" → updates k = some v →
      update_state file updates now_iso k = some v) ∧
    update_state file updates now_iso "updated_at" = some (PyVal.str now_iso) ∧
    (∀ k, k ≠ "updated_at" → updates k = none →
      update_state file updates now_iso k = get_state file k) := by
  refine ⟨?_, ?_, ?_⟩
  · intro k v hk hv
    simp [update_state, py_dict_set, py_dict_update, hk, hv]
  · simp [update_state, py_dict_set]
  · intro k hk hv
    simp [update_state, py_dict_set, py_dict_update, hk, hv]

/-- Claim C10: `get_max_concurrent` returns at least 1 for every reachable
controller state (the fresh state, and any state the operation itself
produces), every time, every force_recalc flag, and every monitor
recommendation, including 0 and negative ones. -/
theorem c10_max_concurrent_at_least_one :
    CcInv cc_init ∧
    ∀ (st : CcState) (now : Int) (force_recalc : Bool) (monitor_max : Int),
      CcInv st →
      1 ≤ (get_max_concurrent st now force_recalc monitor_max).1 ∧
      CcInv (get_max_concurrent st now force_recalc monitor_max).2 := by
  constructor
  · intro v hv
    simp [cc_init] at hv
  · intro st now force_recalc monitor_max hinv
    unfold get_max_concurrent
    split
    · refine ⟨le_max_left 1 monitor_max, ?_⟩
      intro v hv
      simp at hv
      omega
    · next hcond =>
      push_neg at hcond
      obtain ⟨-, hne, -⟩ := hcond
      cases hc : st.cached_max with
      | none => exact absurd hc hne
      | some v => exact ⟨by simpa [hc] using hinv v hc, hinv⟩

/-- Claim C5: the activity classification is exactly UNKNOWN for a missing
(or unparseable) last_heartbeat; otherwise CRITICAL when the elapsed time
exceeds the critical threshold; otherwise WARNING when it exceeds the
warning threshold; otherwise IDLE when it exceeds the idle threshold;
otherwise STAGNANT when bucks growth over the observation period is below
the minimum; otherwise HEALTHY — with the cases tested in that order. -/
theorem c5_activity_status_cases (cfg : ActivityConfig) (last_heartbeat : Option Int)
    (metrics : List MetricRow) (now : Int) :
    (get_activity_status cfg last_heartbeat metrics now = "UNKNOWN" ↔
      last_heartbeat = none) ∧
    (get_activity_status cfg last_heartbeat metrics now = "CRITICAL" ↔
      ∃ hb, last_heartbeat = some hb ∧
        cfg.critical_threshold_hours * 3600 < now - hb) ∧
    (get_activity_status cfg last_heartbeat metrics now = "WARNING" ↔
      ∃ hb, last_heartbeat = some hb ∧
        now - hb ≤ cfg.critical_threshold_hours * 3600 ∧
        cfg.warning_threshold_hours * 3600 < now - hb) ∧
    (get_activity_status cfg last_heartbeat metrics now = "IDLE" ↔
      ∃ hb, last_heartbeat = some hb ∧
        now - hb ≤ cfg.critical_threshold_hours * 3600 ∧
        now - hb ≤ cfg.warning_threshold_hours * 3600 ∧
        cfg.idle_threshold_minutes * 60 < now - hb) ∧
    (get_activity_status cfg last_heartbeat metrics now = "STAGNANT" ↔
      ∃ hb, last_heartbeat = some hb ∧
        now - hb ≤ cfg.critical_threshold_hours * 3600 ∧
        now - hb ≤ cfg.warning_threshold_hours * 3600 ∧
        now - hb ≤ cfg.idle_threshold_minutes * 60 ∧
        is_bucks_stagnant cfg metrics now = true) ∧
    (get_activity_status cfg last_heartbeat metrics now = "HEALTHY" ↔
      ∃ hb, last_heartbeat = some hb ∧
        now - hb ≤ cfg.critical_threshold_hours * 3600 ∧
        now - hb ≤ cfg.warning_threshold_hours * 3600 ∧
        now - hb ≤ cfg.idle_threshold_minutes * 60 ∧
        is_bucks_stagnant cfg metrics now = false) := by
  cases last_heartbeat with
  | none => simp [get_activity_status]
  | some hb =>
    simp only [get_activity_status, Option.some.injEq]
    split_ifs with h1 h2 h3 h4 <;>
      constructor <;> constructor <;>
      simp_all <;> omega

/-- Claim C1 is broken by the code: registering agent "agent1" leaves it
with status WAITING and a pending_activation row, yet the monitor's
selection (filtering on status = 'PENDING') returns no agent to probe,
although the same database with the status PENDING would be probed and the
activation marker detection itself accepts an active-status stdout. -/
theorem c1_waiting_agent_never_probed :
    c1_registered_db.agents =
      [⟨"agent1", "WAITING", some "https://example.test/activate/agent1", some "t0"⟩] ∧
    c1_registered_db.pending =
      [⟨"agent1", "https://example.test/activate/agent1", "t0", 0⟩] ∧
    check_all_pending_selected c1_registered_db = [] ∧
    check_all_pending_selected
      ⟨[⟨"agent1", "PENDING", some "https://example.test/activate/agent1", some "t0"⟩],
        c1_registered_db.pending⟩ = ["agent1"] ∧
    is_activated "profile: \"status\": \"active\"" = true := by
  refine ⟨by decide, by decide, by decide, by decide, by decide⟩

/-- Claim C6: updating an agent with an empty update set (every optional
field absent) is rejected with a 400 client error before any write — the
whole agents table, and in particular the agent's row, is returned
unchanged. -/
theorem c6_empty_update_rejected_no_mutation (db : ApiDb) (agent_id now_iso : String)
    (h : (db.agents agent_id).isSome = true) :
    update_agent_api db agent_id ⟨none, none, none, none, none⟩ now_iso =
      (db, Except.error ⟨400, "No fields to update"⟩) := by
  obtain ⟨row, hrow⟩ := Option.isSome_iff_exists.mp h
  unfold update_agent_api
  rw [hrow]
  rfl

/-- Witness for C6 at a concrete one-agent database. -/
theorem c6_empty_update_rejected_no_mutation_witness :
    update_agent_api c6_db "agent1" ⟨none, none, none, none, none⟩ "t0" =
      (c6_db, Except.error ⟨400, "No fields to update"⟩) :=
  c6_empty_update_rejected_no_mutation c6_db "agent1" "t0" rfl

theorem countP_set_eq {α : Type} {l : List α} {i : Nat} {b : α} (q : α → Bool) (a : α)
    (h : l.get? i = some b) :
    (l.set i a).countP q + (if q b then 1 else 0) = l.countP q + (if q a then 1 else 0) := by
  induction l generalizing i with
  | nil => simp at h
  | cons hd tl ih =>
    cases i with
    | zero =>
      simp only [List.get?] at h
      injection h with h
      subst h
      simp [List.countP_cons]
      split_ifs <;> omega
    | succ j =>
      simp only [List.get?] at h
      have := ih h
      simp [List.countP_cons]
      split_ifs at * <;> omega

theorem countP_replicate_zero {α : Type} (q : α → Bool) (a : α) (n : Nat)
    (h : q a = false) : (List.replicate n a).countP q = 0 := by
  induction n with
  | zero => simp
  | succ m ih => simp [List.replicate, List.countP_cons, h, ih]

/-- Claim C7 against the code: along every execution of any number of
heartbeat tasks, at most one task is inside the admission region
(serialized admission, as claimed) — but also at most one task is inside
the blocking CLI run, because HeartbeatManager holds its process-wide lock
across `asyncio.to_thread(runner.run_heartbeat)`.  Two admitted heartbeats
can therefore never execute their CLI runs concurrently, contradicting the
claim's second half. -/
theorem c7_admission_and_cli_serialized (n : Nat) (s : List HbPc)
    (h : Relation.ReflTransGen HbStep (hb_init n) s) :
    s.countP admission_region ≤ 1 ∧ s.countP cli_region ≤ 1 := by
  induction h with
  | refl =>
    constructor <;> simp [hb_init, countP_replicate_zero, admission_region, cli_region]
  | tail hsteps hstep ih =>
    obtain ⟨iha, ihc⟩ := ih
    cases hstep with
    | acquire_admission i hi hz =>
      have ha := countP_set_eq admission_region HbPc.resCheck hi
      have hc := countP_set_eq cli_region HbPc.resCheck hi
      simp [admission_region, cli_region] at ha hc
      omega
    | admit_slot i hi =>
      have ha := countP_set_eq admission_region HbPc.slotHeld hi
      have hc := countP_set_eq cli_region HbPc.slotHeld hi
      simp [admission_region, cli_region] at ha hc
      omega
    | release_admission i hi =>
      have ha := countP_set_eq admission_region HbPc.admitted hi
      have hc := countP_set_eq cli_region HbPc.admitted hi
      simp [admission_region, cli_region] at ha hc
      omega
    | backoff_return i hi =>
      have ha := countP_set_eq admission_region HbPc.backedOff hi
      have hc := countP_set_eq cli_region HbPc.backedOff hi
      simp [admission_region, cli_region] at ha hc
      omega
    | to_manager i hi =>
      have ha := countP_set_eq admission_region HbPc.mgrWait hi
      have hc := countP_set_eq cli_region HbPc.mgrWait hi
      simp [admission_region, cli_region] at ha hc
      omega
    | acquire_manager i hi hz =>
      have ha := countP_set_eq admission_region HbPc.runningCli hi
      have hc := countP_set_eq cli_region HbPc.runningCli hi
      simp [admission_region, cli_region] at ha hc
      omega
    | finish_cli i hi =>
      have ha := countP_set_eq admission_region HbPc.finished hi
      have hc := countP_set_eq cli_region HbPc.finished hi
      simp [admission_region, cli_region] at ha hc
      omega

/-- Witness for C7 at the two-task initial state. -/
theorem c7_admission_and_cli_serialized_witness :
    (hb_init 2).countP admission_region ≤ 1 ∧ (hb_init 2).countP cli_region ≤ 1 :=
  c7_admission_and_cli_serialized 2 (hb_init 2) Relation.ReflTransGen.refl
